import Mathlib

/-!
Verification development for the MCP-Game repository (tadata-org/MCP-Game).

The repository contains four near-duplicate escape-room game servers:

* `src/server/behind_bars_server.py`        — MCP "behind bars" variant, namespace `BB` below;
* `src/server/behind_bars_fastapi_server.py` — FastAPI "behind bars" variant with
  auto-collection (`smart_inventory_check`), namespace `FB` below;
* `src/server/game_server.py`               — three-door / coded-safe MCP variant, namespace `GS`;
* `src/server/server1.py`                   — three-door / coded-safe variant returning
  plain strings, namespace `S1`.

Each Python tool mutates a module-global `GameState` and returns a JSON object with
keys `success`, `message`, optionally `state` and `won`, plus an `image` rendered by
the layered compositor.  Here every tool is embedded as a pure function from the
state to a `ToolResult` (or a plain `String` for `S1`) paired with the successor
state.  The `image` field is a function of the successor state and is modelled
separately by `composeRoomImage` below together with its asset cache, exactly
following `EscapeImageComposer` of `behind_bars_server.py`.

Python `random`-based tools (`impossible_action` of `behind_bars_server.py`) pick a
random message but never touch the state; they are omitted from the action
alphabets.  `describe_room`, `give_hint` and the FastAPI `impossible_action` /
`multiple_actions` endpoints are deterministic and embedded in full.
-/

/-- Python's `str.strip()` (no argument): drop leading and trailing whitespace.
Modelled over the character list so that it evaluates inside the kernel. -/
def pyStrip (s : String) : String :=
  String.mk (((s.data.dropWhile Char.isWhitespace).reverse.dropWhile
    Char.isWhitespace).reverse)

/-- Uniform shape of one tool's JSON reply (minus the `image` field, which is a
function of the returned state and is modelled by the compositor separately):
`success` and `message` are always present, `hasState` records whether the reply
carries the `"state"` dump, and `won` is the optional `"won"` field. -/
structure ToolResult where
  success : Bool
  message : String
  hasState : Bool
  won : Option Bool
deriving Repr, DecidableEq

/-- Game state of the two "behind bars" variants.  `behind_bars_server.py` and
`behind_bars_fastapi_server.py` define field-for-field identical `GameState`
classes, so a single structure serves both embeddings. -/
structure BarsState where
  door_opened : Bool
  rug_lifted : Bool
  key_taken : Bool
  safe_opened : Bool
  bolt_cutter_taken : Bool
  bars_cut : Bool
  escaped : Bool
  inventory : List String
deriving Repr, DecidableEq

/-- `GameState.__init__`: every flag false, empty inventory. -/
def BarsState.init : BarsState :=
  { door_opened := false, rug_lifted := false, key_taken := false, safe_opened := false
    bolt_cutter_taken := false, bars_cut := false, escaped := false, inventory := [] }

/-- `GameState.reset` of `behind_bars_fastapi_server.py`: sets every field back to
its initial value. -/
def BarsState.reset (_ : BarsState) : BarsState := BarsState.init

namespace BB

/-- `open_door` of `behind_bars_server.py`. -/
def openDoor (s : BarsState) : ToolResult × BarsState :=
  if s.door_opened then
    if s.bars_cut then
      ({ success := true
         message := "The door is already open, and you\x27ve cut through the bars. Freedom awaits!"
         hasState := false, won := none }, s)
    else
      ({ success := true
         message := "The door is already open, but metal bars block your path."
         hasState := false, won := none }, s)
  else
    ({ success := true
       message := "You open the door, but your heart sinks. Thick metal bars block your escape! You\x27ll need to find another way through."
       hasState := true, won := none }, { s with door_opened := true })

/-- `look_under_rug` of `behind_bars_server.py`. -/
def lookUnderRug (s : BarsState) : ToolResult × BarsState :=
  if s.rug_lifted then
    if s.key_taken then
      ({ success := true
         message := "You\x27ve already lifted the rug and taken the key from underneath."
         hasState := false, won := none }, s)
    else
      ({ success := true
         message := "The rug is lifted, revealing the key underneath."
         hasState := false, won := none }, s)
  else
    ({ success := true
       message := "You lift the corner of the rug and discover a small brass key hidden underneath!"
       hasState := true, won := none }, { s with rug_lifted := true })

/-- `take_key` of `behind_bars_server.py`. -/
def takeKey (s : BarsState) : ToolResult × BarsState :=
  if s.key_taken then
    ({ success := false, message := "You already have the key."
       hasState := false, won := none }, s)
  else if !s.rug_lifted then
    ({ success := false
       message := "You don\x27t see any key. Maybe you should look under the rug first?"
       hasState := false, won := none }, s)
  else
    ({ success := true, message := "You pick up the brass key. It feels solid and well-made."
       hasState := true, won := none },
     { s with key_taken := true, inventory := s.inventory ++ ["key"] })

/-- `take_bolt_cutter` of `behind_bars_server.py`.  (The precondition-failure
message carries a trailing blank exactly as in the source.) -/
def takeBoltCutter (s : BarsState) : ToolResult × BarsState :=
  if s.bolt_cutter_taken then
    ({ success := false, message := "You already have the bolt cutter."
       hasState := false, won := none }, s)
  else if !s.safe_opened then
    ({ success := false, message := "The safe is locked. "
       hasState := false, won := none }, s)
  else
    ({ success := true
       message := "You lift the heavy bolt cutter from the safe. Its weight feels reassuring."
       hasState := true, won := none },
     { s with bolt_cutter_taken := true, inventory := s.inventory ++ ["bolt_cutter"] })

/-- `open_safe` of `behind_bars_server.py`.  When the safe is already open but the
bolt cutter has not been taken yet, the source does `return take_bolt_cutter()`. -/
def openSafe (s : BarsState) : ToolResult × BarsState :=
  if s.safe_opened then
    if s.bolt_cutter_taken then
      ({ success := true
         message := "The safe is already open and empty. You\x27ve taken the bolt cutter."
         hasState := false, won := none }, s)
    else takeBoltCutter s
  else if "key" ∉ s.inventory then
    ({ success := false, message := "The safe is locked."
       hasState := false, won := none }, s)
  else
    ({ success := true
       message := "You insert the key into the safe\x27s lock. It turns smoothly! The safe opens with a satisfying click, revealing a heavy-duty bolt cutter inside."
       hasState := true, won := none }, { s with safe_opened := true })

/-- `cut_bars` of `behind_bars_server.py`. -/
def cutBars (s : BarsState) : ToolResult × BarsState :=
  if s.bars_cut then
    ({ success := true
       message := "You\x27ve already cut through the bars. The path to freedom is clear!"
       hasState := false, won := some true }, s)
  else if !s.door_opened then
    ({ success := false, message := "You need to open the door first to see the bars."
       hasState := false, won := none }, s)
  else if "bolt_cutter" ∉ s.inventory then
    ({ success := false, message := "You don\x27t have anything to cut the bars with."
       hasState := false, won := none }, s)
  else
    ({ success := true
       message := "You position the bolt cutter on the metal bars and squeeze with all your might. SNAP! The bars give way with a satisfying crack. You\x27ve created an opening large enough to escape through. Freedom at last!"
       hasState := true, won := some true },
     { s with bars_cut := true, escaped := true })

/-- `describe_room` of `behind_bars_server.py` (the source strips the trailing
blank of the accumulated description before replying). -/
def describeRoom (s : BarsState) : ToolResult × BarsState :=
  let desc := "You stand in a simple room with concrete walls. "
  let desc := desc ++
    (if s.door_opened then
      (if s.bars_cut then
        "The door is open and you\x27ve cut through the metal bars - your escape route is clear! "
      else
        "The door is open, but thick metal bars block your path. ")
    else "A heavy door dominates one wall. ")
  let desc := desc ++
    (if s.rug_lifted then
      (if s.key_taken then
        "The rug is lifted in one corner, revealing the empty hiding spot where you found the key. "
      else
        "The rug is lifted, revealing a brass key underneath. ")
    else "A worn rug covers part of the floor. ")
  let desc := desc ++
    (if s.safe_opened then
      (if s.bolt_cutter_taken then
        "The safe stands open and empty - you\x27ve taken its contents. "
      else
        "The safe is open, revealing a heavy bolt cutter inside. ")
    else "A metal safe sits against the wall, securely locked. ")
  let desc := desc ++
    (if !s.inventory.isEmpty then
      "You\x27re carrying: " ++ String.intercalate ", " s.inventory ++ ". "
    else "")
  let desc := desc ++
    (if s.escaped then "You have successfully escaped the room!" else "")
  ({ success := true, message := desc.trim, hasState := true, won := some s.escaped }, s)

/-- `reset_escape_room` of `behind_bars_server.py` (its `@mcp.tool` registration
is commented out in the source, but the function itself is defined). -/
def resetEscapeRoom (_ : BarsState) : ToolResult × BarsState :=
  ({ success := true
     message := "The room resets itself. The door closes, the rug settles back into place, the safe locks, and your inventory empties. You can start your escape attempt again."
     hasState := true, won := none }, BarsState.init)

/-- Action alphabet of `behind_bars_server.py` (the `random`-messaged
`impossible_action`, which never touches the state, is omitted). -/
inductive Action where
  | open_door
  | look_under_rug
  | take_key
  | open_safe
  | take_bolt_cutter
  | cut_bars
  | describe_room
  | reset_escape_room
deriving Repr, DecidableEq

/-- Dispatch one `behind_bars_server.py` tool call. -/
def step (s : BarsState) (a : Action) : ToolResult × BarsState :=
  match a with
  | .open_door => openDoor s
  | .look_under_rug => lookUnderRug s
  | .take_key => takeKey s
  | .open_safe => openSafe s
  | .take_bolt_cutter => takeBoltCutter s
  | .cut_bars => cutBars s
  | .describe_room => describeRoom s
  | .reset_escape_room => resetEscapeRoom s

/-- The state reached from the initial state after a list of tool calls. -/
def run (acts : List Action) : BarsState :=
  acts.foldl (fun s a => (step s a).2) BarsState.init

end BB


namespace GS

/-- Game state of `game_server.py`: the `doors` dict `{1: False, 2: False, 3: False}`
is flattened into three fields. -/
structure State where
  door1 : Bool
  door2 : Bool
  door3 : Bool
  key_taken : Bool
  safe_unlocked : Bool
  safe_opened : Bool
  has_key : Bool
deriving Repr, DecidableEq

/-- `GameState.__init__` of `game_server.py`. -/
def State.init : State :=
  { door1 := false, door2 := false, door3 := false, key_taken := false
    safe_unlocked := false, safe_opened := false, has_key := false }

/-- Read `game_state.doors[i]` (only ever reached for `i ∈ {1, 2, 3}`). -/
def State.getDoor (s : State) (i : Int) : Bool :=
  if i = 1 then s.door1 else if i = 2 then s.door2 else if i = 3 then s.door3 else false

/-- Write `game_state.doors[i] = v` (only ever reached for `i ∈ {1, 2, 3}`). -/
def State.setDoor (s : State) (i : Int) (v : Bool) : State :=
  if i = 1 then { s with door1 := v }
  else if i = 2 then { s with door2 := v }
  else if i = 3 then { s with door3 := v }
  else s

/-- `look_behind_door` of `game_server.py`; its pydantic `DoorInput.door_id` is an
`int`. -/
def lookBehindDoor (door_id : Int) (s : State) : ToolResult × State :=
  if door_id ∉ ([1, 2, 3] : List Int) then
    ({ success := false, message := "Invalid door number. Must be 1, 2, or 3."
       hasState := false, won := none }, s)
  else if s.getDoor door_id then
    ({ success := false, message := "Door " ++ toString door_id ++ " is already open."
       hasState := false, won := none }, s)
  else
    ({ success := true
       message :=
         if door_id = 1 then
           "Door 1 swings open with a creak. Nothing behind it but empty darkness."
         else if door_id = 2 then
           "Door 2 opens to reveal a rusty key lying on the ground behind it!"
         else
           "Door 3 creaks open. Just shadows and dust behind it."
       hasState := true, won := none }, s.setDoor door_id true)

/-- `take_key` of `game_server.py`. -/
def takeKey (s : State) : ToolResult × State :=
  if s.key_taken then
    ({ success := false, message := "You already have the key."
       hasState := false, won := none }, s)
  else if !s.door2 then
    ({ success := false
       message := "You don\x27t see any key. Try looking behind the doors first."
       hasState := false, won := none }, s)
  else
    ({ success := true
       message := "You pick up the rusty key. It feels heavy and cold in your hand."
       hasState := true, won := none }, { s with key_taken := true, has_key := true })

/-- `use_key_on_safe` of `game_server.py`. -/
def useKeyOnSafe (s : State) : ToolResult × State :=
  if !s.has_key then
    ({ success := false, message := "You don\x27t have a key to use."
       hasState := false, won := none }, s)
  else if s.safe_unlocked then
    ({ success := false, message := "The safe is already unlocked."
       hasState := false, won := none }, s)
  else
    ({ success := true
       message := "You insert the key into the safe\x27s lock. Click! The safe unlocks and the keypad lights up green. You notice a piece of paper inside with the code: 5274"
       hasState := true, won := none }, { s with safe_unlocked := true })

/-- `enter_code` of `game_server.py` (the code is compared verbatim, without any
normalisation). -/
def enterCode (code : String) (s : State) : ToolResult × State :=
  if !s.safe_unlocked then
    ({ success := false
       message := "The safe is still locked. You need to unlock it with a key first."
       hasState := false, won := none }, s)
  else if s.safe_opened then
    ({ success := false, message := "The safe is already open!"
       hasState := false, won := none }, s)
  else if code = "5274" then
    ({ success := true
       message := "SUCCESS! The safe door swings open wide, revealing bright daylight beyond. You\x27ve escaped!"
       hasState := true, won := some true }, { s with safe_opened := true })
  else
    ({ success := false
       message := "You enter " ++ code ++ ". The safe beeps and flashes red. Wrong code!"
       hasState := false, won := none }, s)

/-- `describe_room` of `game_server.py`. -/
def describeRoom (s : State) : ToolResult × State :=
  let openDoors := (([1, 2, 3] : List Int).filter (fun i => s.getDoor i)).map toString
  let closedDoors := (([1, 2, 3] : List Int).filter (fun i => !s.getDoor i)).map toString
  let d := "You stand in a dimly lit escape room. "
  let d := d ++
    (if !closedDoors.isEmpty then
      "Doors " ++ String.intercalate ", " closedDoors ++ " are closed. "
    else "")
  let d := d ++
    (if !openDoors.isEmpty then
      "Doors " ++ String.intercalate ", " openDoors ++ " stand open. "
    else "")
  let d := d ++
    (if s.door2 && !s.key_taken then "A rusty key lies behind door 2. "
    else if s.has_key then "You\x27re holding a rusty key. "
    else "")
  let d := d ++
    (if s.safe_opened then "The safe is wide open, showing your escape route!"
    else if s.safe_unlocked then "The safe is unlocked and ready for a code."
    else "A metal safe sits against the wall, locked tight.")
  ({ success := true, message := d, hasState := true, won := none }, s)

/-- `reset_game` of `game_server.py`: replaces the global state with a fresh
`GameState()`. -/
def resetGame (_ : State) : ToolResult × State :=
  ({ success := true, message := "Game reset! You\x27re back in the escape room."
     hasState := true, won := none }, State.init)

/-- Action alphabet of `game_server.py`. -/
inductive Action where
  | look_behind_door (door_id : Int)
  | take_key
  | use_key_on_safe
  | enter_code (code : String)
  | describe_room
  | reset_game
deriving Repr, DecidableEq

/-- Dispatch one `game_server.py` tool call. -/
def step (s : State) (a : Action) : ToolResult × State :=
  match a with
  | .look_behind_door i => lookBehindDoor i s
  | .take_key => takeKey s
  | .use_key_on_safe => useKeyOnSafe s
  | .enter_code c => enterCode c s
  | .describe_room => describeRoom s
  | .reset_game => resetGame s

/-- The state reached from the initial state after a list of tool calls. -/
def run (acts : List Action) : State :=
  acts.foldl (fun s a => (step s a).2) State.init

end GS


namespace S1

/-- One entry of the `game_state["doors"]` dict of `server1.py`. -/
structure Door where
  opened : Bool
  has_key : Bool
deriving Repr, DecidableEq

/-- The `game_state` dict of `server1.py` (doors keyed `"1"`, `"2"`, `"3"` in
insertion order; the safe starts locked with code `"5274"`). -/
structure State where
  inventory : List String
  door1 : Door
  door2 : Door
  door3 : Door
  safe_locked : Bool
  safe_opened : Bool
  safe_code : String
deriving Repr, DecidableEq

/-- The literal initial `game_state` of `server1.py`: only door `"2"` hides the key. -/
def State.init : State :=
  { inventory := []
    door1 := { opened := false, has_key := false }
    door2 := { opened := false, has_key := true }
    door3 := { opened := false, has_key := false }
    safe_locked := true, safe_opened := false, safe_code := "5274" }

/-- Read `game_state["doors"][d]` (only ever reached for `d ∈ {"1","2","3"}`). -/
def State.getDoor (s : State) (d : String) : Door :=
  if d = "1" then s.door1 else if d = "2" then s.door2 else s.door3

/-- Write `game_state["doors"][d]` (only ever reached for `d ∈ {"1","2","3"}`). -/
def State.setDoor (s : State) (d : String) (v : Door) : State :=
  if d = "1" then { s with door1 := v }
  else if d = "2" then { s with door2 := v }
  else { s with door3 := v }

/-- `look_behind_door` of `server1.py`.  The raw input is whitespace-stripped
(`input.door_id.strip()`) before the `["1", "2", "3"]` membership test; every
result is a plain string (this server's tools return no JSON object). -/
def lookBehindDoor (raw_door_id : String) (s : State) : String × State :=
  let door_id := pyStrip raw_door_id
  if door_id ∉ (["1", "2", "3"] : List String) then
    ("ERROR: Invalid door ID \x27" ++ door_id ++ "\x27. Must be exactly \x271\x27, \x272\x27, or \x273\x27.", s)
  else
    let door := s.getDoor door_id
    if door.opened then
      if door.has_key then
        ("Door_" ++ door_id ++ " is already open. You can see the rusty key lying behind it.", s)
      else
        ("Door_" ++ door_id ++ " is already open and empty.", s)
    else
      let s := s.setDoor door_id { door with opened := true }
      if door.has_key then
        ("You pull open door_" ++ door_id ++ " with a loud creak. Behind it, glinting in the dim light, you spot a rusty old key lying on the ground!", s)
      else
        ("You pull open door_" ++ door_id ++ " with a loud creak. Unfortunately, there\x27s nothing behind it - just empty space and shadows.", s)

/-- `take_key` of `server1.py`: scans the doors dict in insertion order
`"1"`, `"2"`, `"3"` for the first opened door that still hides the key. -/
def takeKey (s : State) : String × State :=
  if "key" ∈ s.inventory then
    ("You already have the key in your possession.", s)
  else if s.door1.has_key && s.door1.opened then
    ("You reach down and pick up the rusty key from behind door_1. It feels heavy and old in your hand.",
     { s with door1.has_key := false, inventory := s.inventory ++ ["key"] })
  else if s.door2.has_key && s.door2.opened then
    ("You reach down and pick up the rusty key from behind door_2. It feels heavy and old in your hand.",
     { s with door2.has_key := false, inventory := s.inventory ++ ["key"] })
  else if s.door3.has_key && s.door3.opened then
    ("You reach down and pick up the rusty key from behind door_3. It feels heavy and old in your hand.",
     { s with door3.has_key := false, inventory := s.inventory ++ ["key"] })
  else
    ("You don\x27t see any key available to take. You might need to look behind the doors first.", s)

/-- `use_key_on_safe` of `server1.py`. -/
def useKeyOnSafe (s : State) : String × State :=
  if "key" ∉ s.inventory then
    ("You don\x27t have a key to use. You need to find and take a key first.", s)
  else if !s.safe_locked then
    ("The safe is already unlocked. The keypad glows green, ready for you to enter a code.", s)
  else
    ("You insert the rusty key into a small keyhole on the side of the safe and turn it. *CLICK!* The safe unlocks and the keypad lights up green. You notice a piece of paper taped inside the lock mechanism with numbers written on it: \x275274\x27.",
     { s with safe_locked := false })

/-- `enter_code` of `server1.py`: the submitted code is whitespace-stripped and
compared with `game_state["safe"]["code"]`. -/
def enterCode (raw_code : String) (s : State) : String × State :=
  let code := pyStrip raw_code
  if s.safe_locked then
    ("The safe is still locked. You need to unlock it with a key before entering a code.", s)
  else if code = s.safe_code then
    if !s.safe_opened then
      ("BEEP BEEP BEEP! You enter the code " ++ code ++ " on the keypad. The safe door swings open wide with a satisfying *WHOOSH*, revealing bright daylight streaming in from outside. You\x27ve found your escape route! Congratulations - you\x27ve successfully escaped the room!",
       { s with safe_opened := true })
    else
      ("You enter the code " ++ code ++ " again. The keypad beeps happily, but you\x27ve already opened the safe and can see your escape route.", s)
  else
    ("You carefully enter the code " ++ code ++ " on the keypad. *BUZZ* The keypad flashes red and makes an error sound. That\x27s not the right code.", s)

/-- `describe_room` of `server1.py`. -/
def describeRoom (s : State) : String × State :=
  let openedDoors := (["1", "2", "3"] : List String).filter (fun d => (s.getDoor d).opened)
  let msg := "You are in a dimly lit room. The air feels thick with mystery. You see three doors clearly labeled: door_1, door_2, and door_3. Against one wall stands a sturdy metal safe with a glowing keypad."
  let msg := msg ++
    (if "key" ∈ s.inventory then " You\x27re holding a rusty key in your hand." else "")
  let msg := msg ++
    (if s.safe_opened then
      " The safe is wide open, revealing bright daylight beyond - your escape route!"
    else if !s.safe_locked then
      " The safe is unlocked (the keypad glows green), but the door is still closed."
    else " The safe appears to be locked tight.")
  let msg := msg ++
    (if !openedDoors.isEmpty then
      " You\x27ve already opened door(s): " ++
        String.intercalate ", " (openedDoors.map (fun d => "door_" ++ d)) ++ "."
    else "")
  (msg, s)

end S1


namespace FB

/-- `smart_inventory_check` of `behind_bars_fastapi_server.py`: auto-collects the
key when the rug is lifted but the key untaken, then the bolt cutter when the
safe is open but the cutter untaken; returns the list of item names collected
by this call together with the mutated state. -/
def smartInventoryCheck (s : BarsState) : List String × BarsState :=
  if s.rug_lifted && !s.key_taken then
    let s1 : BarsState := { s with key_taken := true, inventory := s.inventory ++ ["key"] }
    if s1.safe_opened && !s1.bolt_cutter_taken then
      (["key", "bolt_cutter"],
       { s1 with bolt_cutter_taken := true, inventory := s1.inventory ++ ["bolt_cutter"] })
    else (["key"], s1)
  else if s.safe_opened && !s.bolt_cutter_taken then
    (["bolt_cutter"],
     { s with bolt_cutter_taken := true, inventory := s.inventory ++ ["bolt_cutter"] })
  else ([], s)

/-- `open_door` endpoint of `behind_bars_fastapi_server.py` (unlike the `BB`
variant, the already-open-and-cut reply here carries `"won": True`). -/
def openDoor (s : BarsState) : ToolResult × BarsState :=
  if s.door_opened then
    if s.bars_cut then
      ({ success := true
         message := "The door is already open, and you\x27ve cut through the bars. Freedom awaits!"
         hasState := false, won := some true }, s)
    else
      ({ success := true
         message := "The door is already open, but metal bars block your path."
         hasState := false, won := none }, s)
  else
    ({ success := true
       message := "You open the door, but your heart sinks. Thick metal bars block your escape! You\x27ll need to find another way through."
       hasState := true, won := none }, { s with door_opened := true })

/-- `look_under_rug` endpoint of `behind_bars_fastapi_server.py`. -/
def lookUnderRug (s : BarsState) : ToolResult × BarsState :=
  if s.rug_lifted then
    if s.key_taken then
      ({ success := true
         message := "You\x27ve already taken the key from here."
         hasState := false, won := none }, s)
    else
      ({ success := true
         message := "The rug is lifted, revealing the key underneath."
         hasState := false, won := none }, s)
  else
    ({ success := true
       message := "You lift the corner of the rug and discover a small brass key hidden underneath!"
       hasState := true, won := none }, { s with rug_lifted := true })

/-- `take_key` endpoint of `behind_bars_fastapi_server.py`. -/
def takeKey (s : BarsState) : ToolResult × BarsState :=
  if s.key_taken then
    ({ success := false, message := "You already have the key."
       hasState := false, won := none }, s)
  else if !s.rug_lifted then
    ({ success := false
       message := "You don\x27t see any key. Maybe you should look under the rug first?"
       hasState := false, won := none }, s)
  else
    ({ success := true, message := "You pick up the brass key. It feels solid and well-made."
       hasState := true, won := none },
     { s with key_taken := true, inventory := s.inventory ++ ["key"] })

/-- `take_bolt_cutter` endpoint of `behind_bars_fastapi_server.py`. -/
def takeBoltCutter (s : BarsState) : ToolResult × BarsState :=
  if s.bolt_cutter_taken then
    ({ success := false, message := "You already have the bolt cutter."
       hasState := false, won := none }, s)
  else if !s.safe_opened then
    ({ success := false, message := "The safe is locked."
       hasState := false, won := none }, s)
  else
    ({ success := true
       message := "You lift the heavy bolt cutter from the safe. Its weight feels reassuring."
       hasState := true, won := none },
     { s with bolt_cutter_taken := true, inventory := s.inventory ++ ["bolt_cutter"] })

/-- `open_safe` endpoint of `behind_bars_fastapi_server.py`: when the safe is not
yet open it first runs `smart_inventory_check`, and its success narrative
depends on whether the key was auto-collected by this very call. -/
def openSafe (s : BarsState) : ToolResult × BarsState :=
  if s.safe_opened then
    if s.bolt_cutter_taken then
      ({ success := true, message := "The safe is already open and empty."
         hasState := false, won := none }, s)
    else
      ({ success := true
         message := "The safe is already open, revealing a heavy-duty bolt cutter inside."
         hasState := false, won := none }, s)
  else
    let collected := (smartInventoryCheck s).1
    let s1 := (smartInventoryCheck s).2
    if "key" ∉ s1.inventory then
      ({ success := false, message := "The safe is locked."
         hasState := false, won := none }, s1)
    else
      ({ success := true
         message :=
           if "key" ∈ collected then
             "You grab the key from under the rug and use it on the safe. It turns smoothly! The safe opens with a satisfying click, revealing a heavy-duty bolt cutter inside."
           else
             "You insert the key into the safe\x27s lock. It turns smoothly! The safe opens with a satisfying click, revealing a heavy-duty bolt cutter inside."
         hasState := true, won := none }, { s1 with safe_opened := true })

/-- `cut_bars` endpoint of `behind_bars_fastapi_server.py`: runs
`smart_inventory_check` only after the bars-already-cut and door-closed guards,
and its success narrative depends on whether the bolt cutter was auto-collected
by this very call. -/
def cutBars (s : BarsState) : ToolResult × BarsState :=
  if s.bars_cut then
    ({ success := true
       message := "You\x27ve already cut through the bars. The path to freedom is clear!"
       hasState := false, won := some true }, s)
  else if !s.door_opened then
    ({ success := false, message := "You need to open the door first to see the bars."
       hasState := false, won := none }, s)
  else
    let collected := (smartInventoryCheck s).1
    let s1 := (smartInventoryCheck s).2
    if "bolt_cutter" ∉ s1.inventory then
      ({ success := false, message := "You don\x27t have anything to cut the bars with."
         hasState := false, won := none }, s1)
    else
      ({ success := true
         message :=
           if "bolt_cutter" ∈ collected then
             "You grab the bolt cutter from the safe and immediately put it to work on the metal bars. SNAP! The bars give way with a satisfying crack. You\x27ve created an opening large enough to escape through. Freedom at last!"
           else
             "You position the bolt cutter on the metal bars and squeeze with all your might. SNAP! The bars give way with a satisfying crack. You\x27ve created an opening large enough to escape through. Freedom at last!"
         hasState := true, won := some true },
       { s1 with bars_cut := true, escaped := true })

/-- `use_key_on_door` endpoint of `behind_bars_fastapi_server.py`: runs
`smart_inventory_check` unconditionally, then fails in every branch. -/
def useKeyOnDoor (s : BarsState) : ToolResult × BarsState :=
  let collected := (smartInventoryCheck s).1
  let s1 := (smartInventoryCheck s).2
  if "key" ∉ s1.inventory then
    ({ success := false, message := "You don\x27t have a key yet."
       hasState := false, won := none }, s1)
  else
    ({ success := false
       message :=
         if "key" ∈ collected then
           "You grab the key from under the rug and try it on the door, but it\x27s much too small for the heavy lock."
         else
           "The small brass key doesn\x27t fit the door\x27s heavy lock. It\x27s much too small."
       hasState := false, won := none }, s1)

/-- `use_bolt_cutter_on_door` endpoint of `behind_bars_fastapi_server.py`: runs
`smart_inventory_check` unconditionally, then fails in every branch. -/
def useBoltCutterOnDoor (s : BarsState) : ToolResult × BarsState :=
  let collected := (smartInventoryCheck s).1
  let s1 := (smartInventoryCheck s).2
  if "bolt_cutter" ∉ s1.inventory then
    ({ success := false, message := "You don\x27t have a bolt cutter."
       hasState := false, won := none }, s1)
  else if !s1.door_opened then
    ({ success := false
       message :=
         if "bolt_cutter" ∈ collected then
           "You grab the bolt cutter from the safe and try to use it on the closed door, but it\x27s solid material. Maybe you should open the door first to see what\x27s behind it?"
         else
           "You try to use the bolt cutter on the closed door, but it\x27s solid material. Maybe you should open the door first to see what\x27s behind it?"
       hasState := false, won := none }, s1)
  else
    ({ success := false
       message :=
         if "bolt_cutter" ∈ collected then
           "You grab the bolt cutter from the safe, but it\x27s not meant for the door itself. However, you notice those metal bars blocking your path - maybe the cutter would work on those?"
         else
           "The bolt cutter isn\x27t meant for the door itself. But you notice those metal bars blocking your path - maybe the cutter would work on those?"
       hasState := false, won := none }, s1)

/-- The hint chosen by the `give_hint` endpoint of
`behind_bars_fastapi_server.py` (its `if`/`elif` cascade, including the
catch-all `else` cascade at the end). -/
def hintFor (s : BarsState) : String :=
  if !s.door_opened && !s.rug_lifted then
    "You\x27re in an unfamiliar room. Try exploring what you can see - maybe start with that door or check around the floor."
  else if !s.door_opened && s.rug_lifted && !s.key_taken then
    "You\x27ve discovered something interesting under the rug! Maybe pick it up, then see what\x27s behind that door."
  else if !s.door_opened && s.key_taken then
    "You have a key, but what\x27s behind that door? Better open it and see what you\x27re dealing with."
  else if s.door_opened && !s.rug_lifted then
    "The door reveals your challenge, but you\x27ll need tools to solve it. Search the room thoroughly - check under things."
  else if s.door_opened && s.rug_lifted && !s.key_taken then
    "You can see both your obstacle and a potential solution. Pick up what you found and see what it opens."
  else if s.door_opened && s.key_taken && !s.safe_opened then
    "The bars block your exit, but that key must open something in this room. What else has a lock?"
  else if s.safe_opened && !s.bolt_cutter_taken then
    "The safe revealed exactly what you need! Take that tool - it looks perfect for your problem."
  else if s.bolt_cutter_taken && !s.bars_cut then
    "You have the perfect tool for those metal bars blocking your escape. Time to put it to work!"
  else if !s.door_opened && s.safe_opened then
    "You have a powerful tool now. Maybe see what\x27s behind that door - you might need to cut through something."
  else if s.bars_cut then
    "You\x27ve already found your way to freedom! The path is clear."
  else if !s.door_opened then
    "Start by opening that door to see what you\x27re up against."
  else if !s.rug_lifted then
    "Search the room carefully. Check under anything that looks moveable."
  else if !s.key_taken then
    "You found something useful - make sure to pick it up!"
  else if !s.safe_opened then
    "That key must fit somewhere in this room. Look for something else that\x27s locked."
  else if !s.bolt_cutter_taken then
    "Take that tool from the safe - you\x27re going to need it!"
  else
    "You have everything you need. Use your tool on what\x27s blocking your escape!"

/-- `give_hint` endpoint of `behind_bars_fastapi_server.py`: never mutates the
state. -/
def giveHint (s : BarsState) : ToolResult × BarsState :=
  ({ success := true, message := hintFor s, hasState := false, won := none }, s)

/-- `impossible_action` endpoint of `behind_bars_fastapi_server.py` (this
variant's message is a fixed string, unlike the `random`-based one of
`behind_bars_server.py`). -/
def impossibleAction (s : BarsState) : ToolResult × BarsState :=
  ({ success := false, message := "That\x27s not possible right now."
     hasState := false, won := none }, s)

/-- `reset_game` endpoint of `behind_bars_fastapi_server.py`: calls
`GameState.reset` and reports success. -/
def resetGame (s : BarsState) : ToolResult × BarsState :=
  ({ success := true
     message := "The game has been reset. You are back in the initial room."
     hasState := true, won := none }, BarsState.reset s)

/-- The `action_map` dispatch of the `multiple_actions` endpoint of
`behind_bars_fastapi_server.py` (an unmapped name falls back to
`impossible_action`). -/
def actionMapCall (primary_action : String) (s : BarsState) : ToolResult × BarsState :=
  if primary_action = "open_door" then openDoor s
  else if primary_action = "look_under_rug" then lookUnderRug s
  else if primary_action = "take_key" then takeKey s
  else if primary_action = "open_safe" then openSafe s
  else if primary_action = "take_bolt_cutter" then takeBoltCutter s
  else if primary_action = "cut_bars" then cutBars s
  else if primary_action = "use_key_on_door" then useKeyOnDoor s
  else if primary_action = "use_bolt_cutter_on_door" then useBoltCutterOnDoor s
  else if primary_action = "give_hint" then giveHint s
  else if primary_action = "impossible_action" then impossibleAction s
  else if primary_action = "reset_game" then resetGame s
  else impossibleAction s

/-- `multiple_actions` endpoint of `behind_bars_fastapi_server.py`: dispatches
the primary action through its `action_map` and prefixes the returned message. -/
def multipleActions (primary_action : String) (s : BarsState) : ToolResult × BarsState :=
  ({ (actionMapCall primary_action s).1 with
      message := "MULTIPLE_ACTIONS_DETECTED: We can only do one thing at a time. I executed \x27"
        ++ primary_action ++ "\x27 first. RESULT: " ++ (actionMapCall primary_action s).1.message },
    (actionMapCall primary_action s).2)

/-- Action alphabet of `behind_bars_fastapi_server.py`. -/
inductive Action where
  | open_door
  | look_under_rug
  | take_key
  | open_safe
  | take_bolt_cutter
  | cut_bars
  | use_key_on_door
  | use_bolt_cutter_on_door
  | give_hint
  | impossible_action
  | multiple_actions (primary_action : String)
  | reset_game
deriving Repr, DecidableEq

/-- Dispatch one `behind_bars_fastapi_server.py` endpoint call. -/
def step (s : BarsState) (a : Action) : ToolResult × BarsState :=
  match a with
  | .open_door => openDoor s
  | .look_under_rug => lookUnderRug s
  | .take_key => takeKey s
  | .open_safe => openSafe s
  | .take_bolt_cutter => takeBoltCutter s
  | .cut_bars => cutBars s
  | .use_key_on_door => useKeyOnDoor s
  | .use_bolt_cutter_on_door => useBoltCutterOnDoor s
  | .give_hint => giveHint s
  | .impossible_action => impossibleAction s
  | .multiple_actions p => multipleActions p s
  | .reset_game => resetGame s

/-- The state reached from the initial state after a list of endpoint calls. -/
def run (acts : List Action) : BarsState :=
  acts.foldl (fun s a => (step s a).2) BarsState.init

end FB


/-! ## The layered room-image compositor (`EscapeImageComposer` of
`behind_bars_server.py`)

Pixel buffers are modelled by their provenance: which normalized asset files
were stacked, in which order, onto the base layer.  Since the asset files on
disk are static for the process lifetime, a normalized asset's pixel content is
a function of its filename, so provenance equality entails byte equality of the
encoded output.  The lazily populated `asset_cache` dict is threaded explicitly;
`disk` tells which asset files exist (`os.path.exists`). -/

/-- An in-memory bitmap, identified by how it was produced. -/
inductive Img where
  /-- `Image.new('RGBA', canvas_size, (0, 0, 0, 0))`: the transparent placeholder
  substituted for a missing asset file. -/
  | placeholder : Img
  /-- The named asset file, loaded, resized to the canvas and converted to RGBA. -/
  | asset : String → Img
  /-- `Image.alpha_composite(base, overlay)`. -/
  | composite : Img → Img → Img
  /-- Pasting onto the opaque white RGB backing before PNG encoding. -/
  | flattened : Img → Img
deriving Repr, DecidableEq

/-- Deterministic PNG + base64 encoding of a composed bitmap: a function of the
bitmap's content alone, modelled on provenance terms. -/
def Img.encode : Img → String
  | .placeholder => "blank"
  | .asset n => "asset(" ++ n ++ ")"
  | .composite a b => "comp(" ++ a.encode ++ "," ++ b.encode ++ ")"
  | .flattened a => "flat(" ++ a.encode ++ ")"

/-- The `asset_cache` dict: filename-keyed loaded images, newest entry first. -/
abbrev Cache := List (String × Img)

/-- Dict lookup in the `asset_cache`. -/
def cacheGet (cache : Cache) (f : String) : Option Img :=
  match cache with
  | [] => none
  | (g, i) :: rest => if g = f then some i else cacheGet rest f

/-- `EscapeImageComposer.load_asset`: serve from the cache when present;
otherwise load, normalize and cache the file when it exists on disk, and fall
back to an **uncached** transparent placeholder when it does not. -/
def loadAsset (disk : String → Bool) (cache : Cache) (f : String) : Img × Cache :=
  match cacheGet cache f with
  | some img => (img, cache)
  | none =>
    if disk f then (Img.asset f, (f, Img.asset f) :: cache)
    else (Img.placeholder, cache)

/-- `EscapeImageComposer.compose_room_image`: stack base, door, rug and safe
layers plus one inventory icon per held item, flatten onto the white backing and
encode.  Returns the encoded string together with the updated asset cache. -/
def composeRoomImage (disk : String → Bool) (cache : Cache) (s : BarsState) :
    String × Cache :=
  let base := (loadAsset disk cache "room_base.png").1
  let c1 := (loadAsset disk cache "room_base.png").2
  let doorName :=
    if s.door_opened then
      if s.bars_cut then "door_open_bars_cut.png" else "door_open_bars.png"
    else "door_closed.png"
  let doorOverlay := (loadAsset disk c1 doorName).1
  let c2 := (loadAsset disk c1 doorName).2
  let img1 := Img.composite base doorOverlay
  let rugName :=
    if s.rug_lifted then
      if s.key_taken then "rug_lifted_empty.png" else "rug_lifted_key.png"
    else "rug_normal.png"
  let rugOverlay := (loadAsset disk c2 rugName).1
  let c3 := (loadAsset disk c2 rugName).2
  let img2 := Img.composite img1 rugOverlay
  let safeName :=
    if s.safe_opened then
      if s.bolt_cutter_taken then "safe_open_empty.png" else "safe_open_tool.png"
    else "safe_closed.png"
  let safeOverlay := (loadAsset disk c3 safeName).1
  let c4 := (loadAsset disk c3 safeName).2
  let img3 := Img.composite img2 safeOverlay
  let img4 :=
    if "key" ∈ s.inventory then
      Img.composite img3 (loadAsset disk c4 "inventory_key.png").1
    else img3
  let c5 :=
    if "key" ∈ s.inventory then (loadAsset disk c4 "inventory_key.png").2
    else c4
  let img5 :=
    if "bolt_cutter" ∈ s.inventory then
      Img.composite img4 (loadAsset disk c5 "inventory_bolt_cutter.png").1
    else img4
  let c6 :=
    if "bolt_cutter" ∈ s.inventory then
      (loadAsset disk c5 "inventory_bolt_cutter.png").2
    else c5
  ((Img.flattened img5).encode, c6)

/-- A cache state is consistent with the (static) disk when every cached entry
is exactly the normalized content of an existing asset file of that name.  The
empty initial cache is trivially consistent, and `loadAsset` only ever inserts
such entries. -/
def cacheConsistent (disk : String → Bool) (cache : Cache) : Prop :=
  ∀ p : String × Img, p ∈ cache → disk p.1 = true ∧ p.2 = Img.asset p.1


/-- What `load_asset` returns for a given file once the cache is consistent:
the normalized asset when the file exists, the transparent placeholder
otherwise. -/
def loadPure (disk : String → Bool) (f : String) : Img :=
  if disk f then Img.asset f else Img.placeholder

/-- Load a sequence of asset files in order, threading the cache exactly as the
successive `load_asset` calls of `compose_room_image` do. -/
def loadMany (disk : String → Bool) (cache : Cache) : List String → List Img × Cache
  | [] => ([], cache)
  | f :: rest =>
    ((loadAsset disk cache f).1 ::
        (loadMany disk (loadAsset disk cache f).2 rest).1,
      (loadMany disk (loadAsset disk cache f).2 rest).2)

/-- Alpha-composite a base layer with its overlays in order. -/
def stackLayers : List Img → Img
  | [] => Img.placeholder
  | base :: overlays => overlays.foldl Img.composite base

/-- The asset filenames `compose_room_image` selects for a given state, in
stacking order: base, door, rug and safe region variants, then one inventory
icon per held item. -/
def layerFiles (s : BarsState) : List String :=
  "room_base.png" ::
    (if s.door_opened then
      if s.bars_cut then "door_open_bars_cut.png" else "door_open_bars.png"
    else "door_closed.png") ::
    (if s.rug_lifted then
      if s.key_taken then "rug_lifted_empty.png" else "rug_lifted_key.png"
    else "rug_normal.png") ::
    (if s.safe_opened then
      if s.bolt_cutter_taken then "safe_open_empty.png" else "safe_open_tool.png"
    else "safe_closed.png") ::
    ((if "key" ∈ s.inventory then ["inventory_key.png"] else []) ++
      (if "bolt_cutter" ∈ s.inventory then ["inventory_bolt_cutter.png"] else []))

/-! ## State invariants of the "behind bars" variants -/

/-- Invariant of the bars game state: an item's taken-flag implies its reveal
flag; the safe only ever opens after the key and the bars are only ever cut
after the bolt cutter; each item sits in the inventory exactly when (and with
exactly the multiplicity that) its flag says. -/
def BarsInv (s : BarsState) : Prop :=
  (s.key_taken = true → s.rug_lifted = true) ∧
  (s.bolt_cutter_taken = true → s.safe_opened = true) ∧
  (s.safe_opened = true → s.key_taken = true) ∧
  (s.bars_cut = true → s.bolt_cutter_taken = true) ∧
  s.inventory.count "key" = (if s.key_taken then 1 else 0) ∧
  s.inventory.count "bolt_cutter" = (if s.bolt_cutter_taken then 1 else 0)

theorem cacheGet_mem {c : Cache} {f : String} {i : Img}
    (h : cacheGet c f = some i) : (f, i) ∈ c := by
  induction c with
  | nil => simp [cacheGet] at h
  | cons p rest ih =>
    obtain ⟨g, j⟩ := p
    by_cases hg : g = f
    · subst hg
      simp [cacheGet] at h
      subst h
      exact List.mem_cons_self _ _
    · simp [cacheGet, hg] at h
      exact List.mem_cons_of_mem _ (ih h)

theorem loadAsset_fst (disk : String → Bool) (c : Cache) (f : String)
    (h : cacheConsistent disk c) : (loadAsset disk c f).1 = loadPure disk f := by
  unfold loadAsset loadPure
  cases hg : cacheGet c f with
  | none =>
    by_cases hd : disk f <;> simp [hd]
  | some i =>
    have hm := h (f, i) (cacheGet_mem hg)
    simp only at hm
    simp [hm.1, hm.2]

theorem loadAsset_consistent (disk : String → Bool) (c : Cache) (f : String)
    (h : cacheConsistent disk c) : cacheConsistent disk (loadAsset disk c f).2 := by
  unfold loadAsset
  cases hg : cacheGet c f with
  | none =>
    by_cases hd : disk f
    · simp only [hd, if_true]
      intro p hp
      rcases List.mem_cons.mp hp with h1 | h2
      · subst h1; exact ⟨hd, rfl⟩
      · exact h p h2
    · simp only [hd, if_false]
      exact h
  | some i => exact h

theorem loadMany_fst (disk : String → Bool) (names : List String) :
    ∀ c : Cache, cacheConsistent disk c →
      (loadMany disk c names).1 = names.map (loadPure disk) ∧
        cacheConsistent disk (loadMany disk c names).2 := by
  induction names with
  | nil => intro c h; exact ⟨rfl, h⟩
  | cons f rest ih =>
    intro c h
    have h2 := loadAsset_consistent disk c f h
    obtain ⟨e1, e2⟩ := ih (loadAsset disk c f).2 h2
    refine ⟨?_, e2⟩
    simp [loadMany, loadAsset_fst disk c f h, e1]

/-- `compose_room_image` is the pipeline: load the state-selected layer files in
order, stack them, flatten and encode. -/
theorem composeRoomImage_pipeline (disk : String → Bool) (c : Cache) (s : BarsState) :
    composeRoomImage disk c s =
      ((Img.flattened (stackLayers (loadMany disk c (layerFiles s)).1)).encode,
        (loadMany disk c (layerFiles s)).2) := by
  by_cases hk : "key" ∈ s.inventory <;>
    by_cases hb : "bolt_cutter" ∈ s.inventory <;>
      simp [composeRoomImage, layerFiles, loadMany, stackLayers, hk, hb]

theorem barsInv_init : BarsInv BarsState.init := by
  refine ⟨?_, ?_, ?_, ?_, ?_, ?_⟩ <;> simp [BarsState.init]

theorem barsInv_key_mem {s : BarsState} (h : BarsInv s) :
    ("key" ∈ s.inventory ↔ s.key_taken = true) := by
  obtain ⟨-, -, -, -, hk, -⟩ := h
  constructor
  · intro hm
    by_contra hn
    simp [hn] at hk
    rw [← List.count_pos_iff] at hm
    omega
  · intro ht
    rw [← List.count_pos_iff]
    simp [ht] at hk
    omega

theorem barsInv_bolt_mem {s : BarsState} (h : BarsInv s) :
    ("bolt_cutter" ∈ s.inventory ↔ s.bolt_cutter_taken = true) := by
  obtain ⟨-, -, -, -, -, hb⟩ := h
  constructor
  · intro hm
    by_contra hn
    simp [hn] at hb
    rw [← List.count_pos_iff] at hm
    omega
  · intro ht
    rw [← List.count_pos_iff]
    simp [ht] at hb
    omega

theorem barsInv_BB_openDoor {s : BarsState} (h : BarsInv s) : BarsInv (BB.openDoor s).2 := by
  obtain ⟨h1, h2, h3, h4, h5, h6⟩ := h
  simp only [BB.openDoor]
  split_ifs <;> exact ⟨h1, h2, h3, h4, h5, h6⟩

theorem barsInv_BB_lookUnderRug {s : BarsState} (h : BarsInv s) :
    BarsInv (BB.lookUnderRug s).2 := by
  obtain ⟨h1, h2, h3, h4, h5, h6⟩ := h
  simp only [BB.lookUnderRug]
  split_ifs <;> first
    | exact ⟨h1, h2, h3, h4, h5, h6⟩
    | (refine ⟨?_, ?_, ?_, ?_, ?_, ?_⟩ <;> simp_all)

theorem barsInv_BB_takeKey {s : BarsState} (h : BarsInv s) : BarsInv (BB.takeKey s).2 := by
  obtain ⟨h1, h2, h3, h4, h5, h6⟩ := h
  simp only [BB.takeKey]
  split_ifs <;> first
    | exact ⟨h1, h2, h3, h4, h5, h6⟩
    | (refine ⟨?_, ?_, ?_, ?_, ?_, ?_⟩ <;> simp_all)

theorem barsInv_BB_takeBoltCutter {s : BarsState} (h : BarsInv s) :
    BarsInv (BB.takeBoltCutter s).2 := by
  obtain ⟨h1, h2, h3, h4, h5, h6⟩ := h
  simp only [BB.takeBoltCutter]
  split_ifs <;> first
    | exact ⟨h1, h2, h3, h4, h5, h6⟩
    | (refine ⟨?_, ?_, ?_, ?_, ?_, ?_⟩ <;> simp_all)

theorem barsInv_BB_openSafe {s : BarsState} (h : BarsInv s) : BarsInv (BB.openSafe s).2 := by
  have hkm := barsInv_key_mem h
  obtain ⟨h1, h2, h3, h4, h5, h6⟩ := h
  simp only [BB.openSafe, BB.takeBoltCutter]
  split_ifs <;> first
    | exact ⟨h1, h2, h3, h4, h5, h6⟩
    | (refine ⟨?_, ?_, ?_, ?_, ?_, ?_⟩ <;> simp_all)

theorem barsInv_BB_cutBars {s : BarsState} (h : BarsInv s) : BarsInv (BB.cutBars s).2 := by
  have hbm := barsInv_bolt_mem h
  obtain ⟨h1, h2, h3, h4, h5, h6⟩ := h
  simp only [BB.cutBars]
  split_ifs <;> first
    | exact ⟨h1, h2, h3, h4, h5, h6⟩
    | (refine ⟨?_, ?_, ?_, ?_, ?_, ?_⟩ <;> simp_all)

theorem barsInv_BB_step (s : BarsState) (a : BB.Action) (h : BarsInv s) :
    BarsInv (BB.step s a).2 := by
  cases a with
  | open_door => exact barsInv_BB_openDoor h
  | look_under_rug => exact barsInv_BB_lookUnderRug h
  | take_key => exact barsInv_BB_takeKey h
  | open_safe => exact barsInv_BB_openSafe h
  | take_bolt_cutter => exact barsInv_BB_takeBoltCutter h
  | cut_bars => exact barsInv_BB_cutBars h
  | describe_room => exact h
  | reset_escape_room => exact barsInv_init

/-- Every state reachable through `behind_bars_server.py` tool calls satisfies
the invariant. -/
theorem barsInv_BB_run (acts : List BB.Action) : BarsInv (BB.run acts) := by
  suffices h : ∀ s, BarsInv s → BarsInv (acts.foldl (fun s a => (BB.step s a).2) s) by
    exact h BarsState.init barsInv_init
  induction acts with
  | nil => intro s hs; exact hs
  | cons a rest ih => intro s hs; exact ih _ (barsInv_BB_step s a hs)

theorem barsInv_smart {s : BarsState} (h : BarsInv s) :
    BarsInv (FB.smartInventoryCheck s).2 := by
  obtain ⟨h1, h2, h3, h4, h5, h6⟩ := h
  simp only [FB.smartInventoryCheck]
  split_ifs <;> first
    | exact ⟨h1, h2, h3, h4, h5, h6⟩
    | (refine ⟨?_, ?_, ?_, ?_, ?_, ?_⟩ <;> simp_all)

theorem barsInv_FB_openDoor {s : BarsState} (h : BarsInv s) : BarsInv (FB.openDoor s).2 := by
  obtain ⟨h1, h2, h3, h4, h5, h6⟩ := h
  simp only [FB.openDoor]
  split_ifs <;> exact ⟨h1, h2, h3, h4, h5, h6⟩

theorem barsInv_FB_lookUnderRug {s : BarsState} (h : BarsInv s) :
    BarsInv (FB.lookUnderRug s).2 := by
  obtain ⟨h1, h2, h3, h4, h5, h6⟩ := h
  simp only [FB.lookUnderRug]
  split_ifs <;> first
    | exact ⟨h1, h2, h3, h4, h5, h6⟩
    | (refine ⟨?_, ?_, ?_, ?_, ?_, ?_⟩ <;> simp_all)

theorem barsInv_FB_takeKey {s : BarsState} (h : BarsInv s) : BarsInv (FB.takeKey s).2 := by
  obtain ⟨h1, h2, h3, h4, h5, h6⟩ := h
  simp only [FB.takeKey]
  split_ifs <;> first
    | exact ⟨h1, h2, h3, h4, h5, h6⟩
    | (refine ⟨?_, ?_, ?_, ?_, ?_, ?_⟩ <;> simp_all)

theorem barsInv_FB_takeBoltCutter {s : BarsState} (h : BarsInv s) :
    BarsInv (FB.takeBoltCutter s).2 := by
  obtain ⟨h1, h2, h3, h4, h5, h6⟩ := h
  simp only [FB.takeBoltCutter]
  split_ifs <;> first
    | exact ⟨h1, h2, h3, h4, h5, h6⟩
    | (refine ⟨?_, ?_, ?_, ?_, ?_, ?_⟩ <;> simp_all)

theorem barsInv_FB_openSafe {s : BarsState} (h : BarsInv s) : BarsInv (FB.openSafe s).2 := by
  have hs1 := barsInv_smart h
  have hkm := barsInv_key_mem hs1
  obtain ⟨g1, g2, g3, g4, g5, g6⟩ := hs1
  simp only [FB.openSafe]
  split_ifs with hso hbt hmem hcol
  · exact h
  · exact h
  · exact ⟨g1, fun _ => rfl, fun _ => hkm.mp hmem, g4, g5, g6⟩
  · exact ⟨g1, fun _ => rfl, fun _ => hkm.mp hmem, g4, g5, g6⟩
  · exact ⟨g1, g2, g3, g4, g5, g6⟩

theorem barsInv_FB_cutBars {s : BarsState} (h : BarsInv s) : BarsInv (FB.cutBars s).2 := by
  have hs1 := barsInv_smart h
  have hbm := barsInv_bolt_mem hs1
  obtain ⟨g1, g2, g3, g4, g5, g6⟩ := hs1
  simp only [FB.cutBars]
  split_ifs with hbc hdo hmem hcol
  · exact h
  · exact h
  · exact ⟨g1, g2, g3, fun _ => hbm.mp hmem, g5, g6⟩
  · exact ⟨g1, g2, g3, fun _ => hbm.mp hmem, g5, g6⟩
  · exact ⟨g1, g2, g3, g4, g5, g6⟩

theorem barsInv_FB_useKeyOnDoor {s : BarsState} (h : BarsInv s) :
    BarsInv (FB.useKeyOnDoor s).2 := by
  have hs1 := barsInv_smart h
  simp only [FB.useKeyOnDoor]
  split_ifs <;> exact hs1

theorem barsInv_FB_useBoltCutterOnDoor {s : BarsState} (h : BarsInv s) :
    BarsInv (FB.useBoltCutterOnDoor s).2 := by
  have hs1 := barsInv_smart h
  simp only [FB.useBoltCutterOnDoor]
  split_ifs <;> exact hs1

set_option maxHeartbeats 1000000 in
theorem barsInv_FB_multipleActions {s : BarsState} (p : String) (h : BarsInv s) :
    BarsInv (FB.multipleActions p s).2 := by
  show BarsInv (FB.actionMapCall p s).2
  simp only [FB.actionMapCall]
  split_ifs with e1 e2 e3 e4 e5 e6 e7 e8 e9 e10 e11
  · exact barsInv_FB_openDoor h
  · exact barsInv_FB_lookUnderRug h
  · exact barsInv_FB_takeKey h
  · exact barsInv_FB_openSafe h
  · exact barsInv_FB_takeBoltCutter h
  · exact barsInv_FB_cutBars h
  · exact barsInv_FB_useKeyOnDoor h
  · exact barsInv_FB_useBoltCutterOnDoor h
  · exact h
  · exact h
  · exact barsInv_init
  · exact h

theorem barsInv_FB_step (s : BarsState) (a : FB.Action) (h : BarsInv s) :
    BarsInv (FB.step s a).2 := by
  cases a with
  | open_door => exact barsInv_FB_openDoor h
  | look_under_rug => exact barsInv_FB_lookUnderRug h
  | take_key => exact barsInv_FB_takeKey h
  | open_safe => exact barsInv_FB_openSafe h
  | take_bolt_cutter => exact barsInv_FB_takeBoltCutter h
  | cut_bars => exact barsInv_FB_cutBars h
  | use_key_on_door => exact barsInv_FB_useKeyOnDoor h
  | use_bolt_cutter_on_door => exact barsInv_FB_useBoltCutterOnDoor h
  | give_hint => exact h
  | impossible_action => exact h
  | multiple_actions p => exact barsInv_FB_multipleActions p h
  | reset_game => exact barsInv_init

/-- Every state reachable through `behind_bars_fastapi_server.py` endpoint calls
satisfies the invariant. -/
theorem barsInv_FB_run (acts : List FB.Action) : BarsInv (FB.run acts) := by
  suffices h : ∀ s, BarsInv s → BarsInv (acts.foldl (fun s a => (FB.step s a).2) s) by
    exact h BarsState.init barsInv_init
  induction acts with
  | nil => intro s hs; exact hs
  | cons a rest ih => intro s hs; exact ih _ (barsInv_FB_step s a hs)

/-! ## Claim theorems -/

/-- C4: Invoking the terminal action (`cut_bars` in the bars variants, the
winning code entry in the safe variants) from the initial all-false state
returns `success = false` with `won` absent, and leaves the state unchanged;
invoking the full prerequisite sequence in its documented order yields
`won = true` (resp. the escape message and `safe_opened` for `server1`, whose
replies are plain strings) on the final step, with every intermediate step of
the spec's literal scenario succeeding with the promised flags and inventory. -/
theorem C4_terminal_ordering :
    ((BB.cutBars BarsState.init).1.success = false ∧
      (BB.cutBars BarsState.init).1.won = none ∧
      (BB.cutBars BarsState.init).2 = BarsState.init) ∧
    ((FB.cutBars BarsState.init).1.success = false ∧
      (FB.cutBars BarsState.init).1.won = none ∧
      (FB.cutBars BarsState.init).2 = BarsState.init) ∧
    ((GS.enterCode "5274" GS.State.init).1.success = false ∧
      (GS.enterCode "5274" GS.State.init).1.won = none ∧
      (GS.enterCode "5274" GS.State.init).2 = GS.State.init) ∧
    ((S1.enterCode "5274" S1.State.init).1
        = "The safe is still locked. You need to unlock it with a key before entering a code." ∧
      (S1.enterCode "5274" S1.State.init).2 = S1.State.init) ∧
    ((BB.lookUnderRug BarsState.init).1.success = true ∧
      (BB.run [.look_under_rug]).rug_lifted = true ∧
      (BB.takeKey (BB.run [.look_under_rug])).1.success = true ∧
      (BB.run [.look_under_rug, .take_key]).inventory = ["key"] ∧
      (BB.openSafe (BB.run [.look_under_rug, .take_key])).1.success = true ∧
      (BB.run [.look_under_rug, .take_key, .open_safe]).safe_opened = true ∧
      (BB.takeBoltCutter (BB.run [.look_under_rug, .take_key, .open_safe])).1.success = true ∧
      (BB.run [.look_under_rug, .take_key, .open_safe, .take_bolt_cutter]).inventory
        = ["key", "bolt_cutter"] ∧
      (BB.openDoor (BB.run [.look_under_rug, .take_key, .open_safe, .take_bolt_cutter])).1.success
        = true ∧
      (BB.run [.look_under_rug, .take_key, .open_safe, .take_bolt_cutter, .open_door]).door_opened
        = true ∧
      (BB.cutBars (BB.run
          [.look_under_rug, .take_key, .open_safe, .take_bolt_cutter, .open_door])).1.success
        = true ∧
      (BB.cutBars (BB.run
          [.look_under_rug, .take_key, .open_safe, .take_bolt_cutter, .open_door])).1.won
        = some true) ∧
    ((FB.cutBars (FB.run
          [.look_under_rug, .take_key, .open_safe, .take_bolt_cutter, .open_door])).1.success
        = true ∧
      (FB.cutBars (FB.run
          [.look_under_rug, .take_key, .open_safe, .take_bolt_cutter, .open_door])).1.won
        = some true) ∧
    ((GS.enterCode "5274"
          (GS.run [.look_behind_door 2, .take_key, .use_key_on_safe])).1.success = true ∧
      (GS.enterCode "5274"
          (GS.run [.look_behind_door 2, .take_key, .use_key_on_safe])).1.won = some true) ∧
    ((S1.enterCode "5274"
        (S1.useKeyOnSafe (S1.takeKey (S1.lookBehindDoor "2" S1.State.init).2).2).2).2.safe_opened
      = true) := by
  decide

/-- C8: the reset operations of `game_server.py` (tool `reset_game`),
`behind_bars_fastapi_server.py` (`GameState.reset` and endpoint `reset_game`)
and `behind_bars_server.py` (`reset_escape_room`) map **every** state — hence
the result of any prior action history — to exactly the canonical initial state,
unconditionally and with `success = true`. -/
theorem C8_reset_canonical :
    (∀ g : GS.State, GS.resetGame g =
      ({ success := true, message := "Game reset! You\x27re back in the escape room."
         hasState := true, won := none }, GS.State.init)) ∧
    (∀ s : BarsState, BarsState.reset s = BarsState.init) ∧
    (∀ s : BarsState, FB.resetGame s =
      ({ success := true, message := "The game has been reset. You are back in the initial room."
         hasState := true, won := none }, BarsState.init)) ∧
    (∀ s : BarsState, BB.resetEscapeRoom s =
      ({ success := true
         message := "The room resets itself. The door closes, the rug settles back into place, the safe locks, and your inventory empties. You can start your escape attempt again."
         hasState := true, won := none }, BarsState.init)) :=
  ⟨fun _ => rfl, fun _ => rfl, fun _ => rfl, fun _ => rfl⟩

/-- C5: the room-image compositor is a pure function of the game state: the
empty initial cache is consistent with the static asset disk, every
`compose_room_image` call keeps the cache consistent, and two calls with
by-value-equal states return byte-identical encoded output no matter which
(consistent) cache states the two calls start from. -/
theorem C5_compositor_pure :
    (∀ disk : String → Bool, cacheConsistent disk ([] : Cache)) ∧
    (∀ (disk : String → Bool) (c : Cache) (s : BarsState),
      cacheConsistent disk c → cacheConsistent disk (composeRoomImage disk c s).2) ∧
    (∀ (disk : String → Bool) (c c2 : Cache) (s s2 : BarsState),
      cacheConsistent disk c → cacheConsistent disk c2 → s = s2 →
        (composeRoomImage disk c s).1 = (composeRoomImage disk c2 s2).1) := by
  refine ⟨?_, ?_, ?_⟩
  · intro disk p hp
    simp at hp
  · intro disk c s h
    rw [composeRoomImage_pipeline]
    exact (loadMany_fst disk (layerFiles s) c h).2
  · intro disk c c2 s s2 h h2 hs
    subst hs
    rw [composeRoomImage_pipeline, composeRoomImage_pipeline,
      (loadMany_fst disk (layerFiles s) c h).1, (loadMany_fst disk (layerFiles s) c2 h2).1]

/-- C5 witness: on a disk where every asset exists, rendering the initial state
with the empty cache and re-rendering it with the cache populated by the first
call produce the same encoded string. -/
theorem C5_compositor_pure_witness :
    (composeRoomImage (fun _ => true) [] BarsState.init).1 =
      (composeRoomImage (fun _ => true)
        (composeRoomImage (fun _ => true) [] BarsState.init).2 BarsState.init).1 :=
  C5_compositor_pure.2.2 (fun _ => true) []
    (composeRoomImage (fun _ => true) [] BarsState.init).2 BarsState.init BarsState.init
    (C5_compositor_pure.1 (fun _ => true))
    (C5_compositor_pure.2.1 (fun _ => true) [] BarsState.init
      (C5_compositor_pure.1 (fun _ => true)))
    rfl

/-- C2 counterexample: the input string `" 1 "` is **not** one of the literal
strings `"1"`, `"2"`, `"3"`, yet `server1.py`'s `look_behind_door` does not
reject it — it strips the whitespace first and routes the call to door 1,
opening it. -/
theorem C2_counterexample :
    (" 1 " ∉ (["1", "2", "3"] : List String)) ∧
    (S1.lookBehindDoor " 1 " S1.State.init).2.door1.opened = true ∧
    (S1.lookBehindDoor " 1 " S1.State.init).1 =
      "You pull open door_1 with a loud creak. Unfortunately, there\x27s nothing behind it - just empty space and shadows." := by
  decide

/-- C2 amended: door-identifier validation happens after normalisation.  In
`server1.py` (string door ids) the input is whitespace-stripped first; a
stripped value outside `{"1","2","3"}` yields the explanatory `ERROR` reply
with the state untouched (this server's replies are plain strings, so the
rejection is in-band rather than a `success=false` field), and a stripped value
inside the set routes to exactly that door: that door ends up open and every
other part of the state is unchanged.  In `game_server.py` the door id is an
`int`; ids outside `{1,2,3}` yield `success=false` with an explanatory message
and unchanged state, ids inside the set route to that door.  Neither server can
raise: both embeddings are total functions. -/
theorem C2_door_id_validation :
    (∀ (c : String) (t : S1.State), pyStrip c ∉ (["1", "2", "3"] : List String) →
      S1.lookBehindDoor c t =
        ("ERROR: Invalid door ID \x27" ++ pyStrip c ++
          "\x27. Must be exactly \x271\x27, \x272\x27, or \x273\x27.", t)) ∧
    (∀ (c : String) (t : S1.State), pyStrip c = "1" →
      (S1.lookBehindDoor c t).2.door1.opened = true ∧
      (S1.lookBehindDoor c t).2.door2 = t.door2 ∧
      (S1.lookBehindDoor c t).2.door3 = t.door3 ∧
      (S1.lookBehindDoor c t).2.inventory = t.inventory ∧
      (S1.lookBehindDoor c t).2.safe_locked = t.safe_locked ∧
      (S1.lookBehindDoor c t).2.safe_opened = t.safe_opened) ∧
    (∀ (c : String) (t : S1.State), pyStrip c = "2" →
      (S1.lookBehindDoor c t).2.door2.opened = true ∧
      (S1.lookBehindDoor c t).2.door1 = t.door1 ∧
      (S1.lookBehindDoor c t).2.door3 = t.door3 ∧
      (S1.lookBehindDoor c t).2.inventory = t.inventory ∧
      (S1.lookBehindDoor c t).2.safe_locked = t.safe_locked ∧
      (S1.lookBehindDoor c t).2.safe_opened = t.safe_opened) ∧
    (∀ (c : String) (t : S1.State), pyStrip c = "3" →
      (S1.lookBehindDoor c t).2.door3.opened = true ∧
      (S1.lookBehindDoor c t).2.door1 = t.door1 ∧
      (S1.lookBehindDoor c t).2.door2 = t.door2 ∧
      (S1.lookBehindDoor c t).2.inventory = t.inventory ∧
      (S1.lookBehindDoor c t).2.safe_locked = t.safe_locked ∧
      (S1.lookBehindDoor c t).2.safe_opened = t.safe_opened) ∧
    (∀ (i : Int) (g : GS.State), i ∉ ([1, 2, 3] : List Int) →
      GS.lookBehindDoor i g =
        ({ success := false, message := "Invalid door number. Must be 1, 2, or 3."
           hasState := false, won := none }, g)) ∧
    (∀ (i : Int) (g : GS.State), i ∈ ([1, 2, 3] : List Int) →
      (GS.lookBehindDoor i g).2.getDoor i = true ∧
        ∀ j, j ∈ ([1, 2, 3] : List Int) → j ≠ i →
          (GS.lookBehindDoor i g).2.getDoor j = g.getDoor j) := by
  refine ⟨?_, ?_, ?_, ?_, ?_, ?_⟩
  · intro c t h
    simp only [S1.lookBehindDoor]
    rw [if_pos h]
  · intro c t h
    simp only [S1.lookBehindDoor, h, S1.State.getDoor, S1.State.setDoor]
    by_cases ho : t.door1.opened <;>
      by_cases hk : t.door1.has_key <;>
        simp_all
  · intro c t h
    simp only [S1.lookBehindDoor, h, S1.State.getDoor, S1.State.setDoor]
    by_cases ho : t.door2.opened <;>
      by_cases hk : t.door2.has_key <;>
        simp_all
  · intro c t h
    simp only [S1.lookBehindDoor, h, S1.State.getDoor, S1.State.setDoor]
    by_cases ho : t.door3.opened <;>
      by_cases hk : t.door3.has_key <;>
        simp_all
  · intro i g h
    simp only [GS.lookBehindDoor]
    rw [if_pos h]
  · intro i g h
    simp only [List.mem_cons, List.not_mem_nil, or_false] at h
    rcases h with h | h | h <;> subst h <;>
      constructor <;>
        (simp only [GS.lookBehindDoor, GS.State.getDoor, GS.State.setDoor]
         by_cases ho : g.door1 = true <;> by_cases ho2 : g.door2 = true <;>
           by_cases ho3 : g.door3 = true <;> simp_all)

/-- C2 witness: the concrete string `"4"` is rejected by `server1.py` with the
ERROR reply and unchanged state; the concrete string `"2"` routes to door 2;
the concrete id `7` is rejected by `game_server.py` with `success=false`; the
concrete id `3` routes to door 3. -/
theorem C2_door_id_validation_witness :
    (S1.lookBehindDoor "4" S1.State.init =
      ("ERROR: Invalid door ID \x274\x27. Must be exactly \x271\x27, \x272\x27, or \x273\x27.",
        S1.State.init)) ∧
    (S1.lookBehindDoor "2" S1.State.init).2.door2.opened = true ∧
    (GS.lookBehindDoor 7 GS.State.init =
      ({ success := false, message := "Invalid door number. Must be 1, 2, or 3."
         hasState := false, won := none }, GS.State.init)) ∧
    (GS.lookBehindDoor 3 GS.State.init).2.getDoor 3 = true :=
  ⟨C2_door_id_validation.1 "4" S1.State.init (by decide),
    (C2_door_id_validation.2.2.1 "2" S1.State.init (by decide)).1,
    C2_door_id_validation.2.2.2.2.1 7 GS.State.init (by decide),
    (C2_door_id_validation.2.2.2.2.2 3 GS.State.init (by decide)).1⟩

/-- C3: code entry.  In `game_server.py`, from any state where entry is enabled
(safe unlocked, not yet open), the designated code `"5274"` succeeds with
`won = true` and opens the safe; immediately repeating it is a no-op
(`success = false`, no `won`, state unchanged), so `won = true` is produced
exactly once; any code other than `"5274"` yields `success = false`, no `won`
field, and an unchanged state — in particular it never changes the won/escaped
status.  The same holds for `server1.py` (whose plain-string replies have no
`success` field): the correct code opens the safe once, repeats are no-ops, and
any code whose stripped form differs from the stored code leaves the state
unchanged. -/
theorem C3_code_entry :
    (∀ g : GS.State, g.safe_unlocked = true → g.safe_opened = false →
      (GS.enterCode "5274" g).1.success = true ∧
      (GS.enterCode "5274" g).1.won = some true ∧
      (GS.enterCode "5274" g).2 = { g with safe_opened := true } ∧
      (GS.enterCode "5274" (GS.enterCode "5274" g).2).1.success = false ∧
      (GS.enterCode "5274" (GS.enterCode "5274" g).2).1.won = none ∧
      (GS.enterCode "5274" (GS.enterCode "5274" g).2).2 = (GS.enterCode "5274" g).2) ∧
    (∀ (code : String) (g : GS.State), code ≠ "5274" →
      (GS.enterCode code g).1.success = false ∧
      (GS.enterCode code g).1.won = none ∧
      (GS.enterCode code g).2 = g) ∧
    (∀ t : S1.State, t.safe_locked = false → t.safe_opened = false →
        t.safe_code = "5274" →
      (S1.enterCode "5274" t).2 = { t with safe_opened := true } ∧
      (S1.enterCode "5274" (S1.enterCode "5274" t).2).2 = (S1.enterCode "5274" t).2) ∧
    (∀ (code : String) (t : S1.State), pyStrip code ≠ t.safe_code →
      (S1.enterCode code t).2 = t) := by
  refine ⟨?_, ?_, ?_, ?_⟩
  · intro g hu ho
    simp [GS.enterCode, hu, ho]
  · intro code g hc
    simp only [GS.enterCode]
    by_cases hu : g.safe_unlocked <;> by_cases ho : g.safe_opened <;> simp_all
  · intro t hl ho hc
    have hp : pyStrip "5274" = "5274" := by decide
    simp [S1.enterCode, hl, ho, hc, hp]
  · intro code t hc
    simp only [S1.enterCode]
    by_cases hl : t.safe_locked <;> simp_all

/-- C3 witness: in the concrete unlocked-but-unopened `game_server.py` state
reached by opening door 2, taking the key and unlocking the safe, entering
`"5274"` reports `won = true` and repeating it reports no `won`; entering
`"1111"` in the initial state changes nothing; the same concrete checks for
`server1.py`. -/
theorem C3_code_entry_witness :
    (GS.enterCode "5274"
        (GS.run [.look_behind_door 2, .take_key, .use_key_on_safe])).1.won = some true ∧
    (GS.enterCode "5274"
        (GS.enterCode "5274"
          (GS.run [.look_behind_door 2, .take_key, .use_key_on_safe])).2).1.won = none ∧
    (GS.enterCode "1111" GS.State.init).2 = GS.State.init ∧
    (S1.enterCode "9999" S1.State.init).2 = S1.State.init :=
  ⟨(C3_code_entry.1 (GS.run [.look_behind_door 2, .take_key, .use_key_on_safe])
      (by decide) (by decide)).2.1,
    (C3_code_entry.1 (GS.run [.look_behind_door 2, .take_key, .use_key_on_safe])
      (by decide) (by decide)).2.2.2.2.1,
    (C3_code_entry.2.1 "1111" GS.State.init (by decide)).2.2,
    C3_code_entry.2.2.2 "9999" S1.State.init (by decide)⟩

/-- C6 counterexample: in the FastAPI variant, the reachable state obtained by
`look_under_rug` then `open_safe` (auto-collecting the key) has the bolt cutter
visible but not collected — yet calling the dependent action `cut_bars` there
neither collects the bolt cutter nor performs the cut: the door-closed guard
runs before `smart_inventory_check`, so the call fails with the state
unchanged. -/
theorem C6_counterexample :
    (FB.run [.look_under_rug, .open_safe]).safe_opened = true ∧
    (FB.run [.look_under_rug, .open_safe]).bolt_cutter_taken = false ∧
    (FB.cutBars (FB.run [.look_under_rug, .open_safe])).1.success = false ∧
    (FB.cutBars (FB.run [.look_under_rug, .open_safe])).2 =
      FB.run [.look_under_rug, .open_safe] := by
  decide

/-- C6 amended: in the auto-collect (FastAPI) variant, when a dependent
action's prerequisite item is visible but not yet collected **and the action's
remaining guards hold** (for `open_safe`: the safe not already open; for
`cut_bars`: the door opened and the bars not yet cut), one call both collects
the item and performs the dependent action, and the success narrative (the
"grab" message) differs from the narrative returned when the item was already
held.  Without the remaining guards the call can fail without collecting
(`cut_bars` with the door still closed). -/
theorem C6_auto_collect :
    (∀ s : BarsState, s.rug_lifted = true → s.key_taken = false → s.safe_opened = false →
      (FB.openSafe s).1.success = true ∧
      (FB.openSafe s).2.key_taken = true ∧
      "key" ∈ (FB.openSafe s).2.inventory ∧
      (FB.openSafe s).2.safe_opened = true ∧
      (FB.openSafe s).1.message =
        "You grab the key from under the rug and use it on the safe. It turns smoothly! The safe opens with a satisfying click, revealing a heavy-duty bolt cutter inside.") ∧
    (∀ s : BarsState, s.key_taken = true → s.safe_opened = false →
        "key" ∈ s.inventory →
      (FB.openSafe s).1.success = true ∧
      (FB.openSafe s).2.safe_opened = true ∧
      (FB.openSafe s).1.message =
        "You insert the key into the safe\x27s lock. It turns smoothly! The safe opens with a satisfying click, revealing a heavy-duty bolt cutter inside.") ∧
    ("You grab the key from under the rug and use it on the safe. It turns smoothly! The safe opens with a satisfying click, revealing a heavy-duty bolt cutter inside." ≠
      "You insert the key into the safe\x27s lock. It turns smoothly! The safe opens with a satisfying click, revealing a heavy-duty bolt cutter inside.") ∧
    (∀ s : BarsState, s.safe_opened = true → s.bolt_cutter_taken = false →
        s.door_opened = true → s.bars_cut = false →
      (FB.cutBars s).1.success = true ∧
      (FB.cutBars s).2.bolt_cutter_taken = true ∧
      "bolt_cutter" ∈ (FB.cutBars s).2.inventory ∧
      (FB.cutBars s).2.bars_cut = true ∧
      (FB.cutBars s).1.message =
        "You grab the bolt cutter from the safe and immediately put it to work on the metal bars. SNAP! The bars give way with a satisfying crack. You\x27ve created an opening large enough to escape through. Freedom at last!") ∧
    (∀ s : BarsState, s.bolt_cutter_taken = true → s.door_opened = true →
        s.bars_cut = false → "bolt_cutter" ∈ s.inventory →
      (FB.cutBars s).1.success = true ∧
      (FB.cutBars s).1.message =
        "You position the bolt cutter on the metal bars and squeeze with all your might. SNAP! The bars give way with a satisfying crack. You\x27ve created an opening large enough to escape through. Freedom at last!") ∧
    ("You grab the bolt cutter from the safe and immediately put it to work on the metal bars. SNAP! The bars give way with a satisfying crack. You\x27ve created an opening large enough to escape through. Freedom at last!" ≠
      "You position the bolt cutter on the metal bars and squeeze with all your might. SNAP! The bars give way with a satisfying crack. You\x27ve created an opening large enough to escape through. Freedom at last!") := by
  refine ⟨?_, ?_, by decide, ?_, ?_, by decide⟩
  · intro s h1 h2 h3
    simp [FB.openSafe, FB.smartInventoryCheck, h1, h2, h3]
  · intro s h1 h2 h3
    simp [FB.openSafe, FB.smartInventoryCheck, h1, h2, h3]
  · intro s h1 h2 h3 h4
    by_cases hr : s.rug_lifted <;> by_cases hk : s.key_taken <;>
      simp_all [FB.cutBars, FB.smartInventoryCheck]
  · intro s h1 h2 h3 h4
    by_cases hr : s.rug_lifted <;> by_cases hk : s.key_taken <;>
      simp_all [FB.cutBars, FB.smartInventoryCheck]

/-- C6 witness: in the concrete state after `look_under_rug` (key visible,
uncollected), `open_safe` both takes the key and opens the safe with the "grab"
narrative; in the concrete state after `open_door`, `look_under_rug`,
`open_safe` (bolt cutter visible, uncollected), `cut_bars` takes the cutter and
cuts the bars with its "grab" narrative. -/
theorem C6_auto_collect_witness :
    ((FB.openSafe (FB.run [.look_under_rug])).2.key_taken = true ∧
      (FB.openSafe (FB.run [.look_under_rug])).2.safe_opened = true) ∧
    ((FB.cutBars (FB.run [.open_door, .look_under_rug, .open_safe])).2.bolt_cutter_taken = true ∧
      (FB.cutBars (FB.run [.open_door, .look_under_rug, .open_safe])).2.bars_cut = true) :=
  ⟨⟨(C6_auto_collect.1 (FB.run [.look_under_rug]) (by decide) (by decide) (by decide)).2.1,
      (C6_auto_collect.1 (FB.run [.look_under_rug]) (by decide) (by decide)
        (by decide)).2.2.2.1⟩,
    ⟨(C6_auto_collect.2.2.2.1 (FB.run [.open_door, .look_under_rug, .open_safe])
        (by decide) (by decide) (by decide) (by decide)).2.1,
      (C6_auto_collect.2.2.2.1 (FB.run [.open_door, .look_under_rug, .open_safe])
        (by decide) (by decide) (by decide) (by decide)).2.2.2.1⟩⟩

/-- C9: the FastAPI door probes `use_key_on_door` and `use_bolt_cutter_on_door`
return `success = false` from **every** state, yet they run
`smart_inventory_check` first, so when the prerequisite item is visible but
uncollected the failing call still mutates the state: it sets the item's taken
flag and adds it to the inventory.  `success = false` therefore does not imply
the state is unchanged. -/
theorem C9_failing_probes_mutate :
    (∀ s : BarsState, (FB.useKeyOnDoor s).1.success = false) ∧
    (∀ s : BarsState, (FB.useBoltCutterOnDoor s).1.success = false) ∧
    (∀ s : BarsState, s.rug_lifted = true → s.key_taken = false →
      (FB.useKeyOnDoor s).2.key_taken = true ∧
      "key" ∈ (FB.useKeyOnDoor s).2.inventory ∧
      (FB.useKeyOnDoor s).2 ≠ s) ∧
    (∀ s : BarsState, s.safe_opened = true → s.bolt_cutter_taken = false →
      (FB.useBoltCutterOnDoor s).2.bolt_cutter_taken = true ∧
      "bolt_cutter" ∈ (FB.useBoltCutterOnDoor s).2.inventory ∧
      (FB.useBoltCutterOnDoor s).2 ≠ s) := by
  refine ⟨?_, ?_, ?_, ?_⟩
  · intro s
    simp only [FB.useKeyOnDoor]
    split_ifs <;> rfl
  · intro s
    simp only [FB.useBoltCutterOnDoor]
    split_ifs <;> rfl
  · intro s h1 h2
    have hsnd : (FB.useKeyOnDoor s).2 = (FB.smartInventoryCheck s).2 := by
      simp only [FB.useKeyOnDoor]
      split_ifs <;> rfl
    have hkt : (FB.useKeyOnDoor s).2.key_taken = true := by
      rw [hsnd]
      by_cases hb : s.safe_opened <;> by_cases hbt : s.bolt_cutter_taken <;>
        simp_all [FB.smartInventoryCheck]
    have hmem : "key" ∈ (FB.useKeyOnDoor s).2.inventory := by
      rw [hsnd]
      by_cases hb : s.safe_opened <;> by_cases hbt : s.bolt_cutter_taken <;>
        simp_all [FB.smartInventoryCheck]
    refine ⟨hkt, hmem, ?_⟩
    intro he
    rw [he, h2] at hkt
    exact Bool.false_ne_true hkt
  · intro s h1 h2
    have hsnd : (FB.useBoltCutterOnDoor s).2 = (FB.smartInventoryCheck s).2 := by
      simp only [FB.useBoltCutterOnDoor]
      split_ifs <;> rfl
    have hbt : (FB.useBoltCutterOnDoor s).2.bolt_cutter_taken = true := by
      rw [hsnd]
      by_cases hr : s.rug_lifted <;> by_cases hk : s.key_taken <;>
        simp_all [FB.smartInventoryCheck]
    have hmem : "bolt_cutter" ∈ (FB.useBoltCutterOnDoor s).2.inventory := by
      rw [hsnd]
      by_cases hr : s.rug_lifted <;> by_cases hk : s.key_taken <;>
        simp_all [FB.smartInventoryCheck]
    refine ⟨hbt, hmem, ?_⟩
    intro he
    rw [he, h2] at hbt
    exact Bool.false_ne_true hbt

/-- C9 witness: in the concrete state after `look_under_rug`, the failing
`use_key_on_door` call collects the key; in the concrete state after
`look_under_rug` then `open_safe`, the failing `use_bolt_cutter_on_door` call
collects the bolt cutter. -/
theorem C9_failing_probes_mutate_witness :
    (FB.useKeyOnDoor (FB.run [.look_under_rug])).1.success = false ∧
    (FB.useKeyOnDoor (FB.run [.look_under_rug])).2.key_taken = true ∧
    (FB.useBoltCutterOnDoor (FB.run [.look_under_rug, .open_safe])).1.success = false ∧
    (FB.useBoltCutterOnDoor (FB.run [.look_under_rug, .open_safe])).2.bolt_cutter_taken
      = true :=
  ⟨C9_failing_probes_mutate.1 (FB.run [.look_under_rug]),
    (C9_failing_probes_mutate.2.2.1 (FB.run [.look_under_rug]) (by decide) (by decide)).1,
    C9_failing_probes_mutate.2.1 (FB.run [.look_under_rug, .open_safe]),
    (C9_failing_probes_mutate.2.2.2 (FB.run [.look_under_rug, .open_safe])
      (by decide) (by decide)).1⟩

/-- C7: along every action sequence of `behind_bars_server.py` from the initial
state, the reached state satisfies the invariant "took-item implies its reveal"
(`key_taken ⇒ rug_lifted`, `bolt_cutter_taken ⇒ safe_opened`), and the
item-dependent transitions succeed only with the item in the inventory: a
successful `open_safe` implies the key is held, a successful `cut_bars` implies
the bolt cutter is held. -/
theorem C7_reachable_invariants (acts : List BB.Action) :
    ((BB.run acts).key_taken = true → (BB.run acts).rug_lifted = true) ∧
    ((BB.run acts).bolt_cutter_taken = true → (BB.run acts).safe_opened = true) ∧
    ((BB.openSafe (BB.run acts)).1.success = true → "key" ∈ (BB.run acts).inventory) ∧
    ((BB.cutBars (BB.run acts)).1.success = true →
      "bolt_cutter" ∈ (BB.run acts).inventory) := by
  have h := barsInv_BB_run acts
  have hkm := barsInv_key_mem h
  have hbm := barsInv_bolt_mem h
  obtain ⟨h1, h2, h3, h4, h5, h6⟩ := h
  refine ⟨h1, h2, ?_, ?_⟩
  · intro hs
    simp only [BB.openSafe, BB.takeBoltCutter] at hs
    split_ifs at hs <;> simp_all
  · intro hs
    simp only [BB.cutBars] at hs
    split_ifs at hs <;> simp_all

/-- C7 witness: concrete instances — after `look_under_rug` and `take_key` the
taken key implies the lifted rug, and `open_safe` succeeding there implies the
key is in the inventory. -/
theorem C7_reachable_invariants_witness :
    (BB.run [.look_under_rug, .take_key]).rug_lifted = true ∧
    "key" ∈ (BB.run [.look_under_rug, .take_key]).inventory :=
  ⟨(C7_reachable_invariants [.look_under_rug, .take_key]).1 (by decide),
    (C7_reachable_invariants [.look_under_rug, .take_key]).2.2.1 (by decide)⟩

/-- C10: in every state reachable in either bars variant, the inventory holds
`"key"` exactly once when `key_taken` and not at all otherwise, and likewise
`"bolt_cutter"` with `bolt_cutter_taken` — so each item occurs at most once and
membership mirrors the corresponding flag, and every action preserves this. -/
theorem C10_inventory_mirrors_flags :
    (∀ acts : List BB.Action,
      (BB.run acts).inventory.count "key"
          = (if (BB.run acts).key_taken then 1 else 0) ∧
      (BB.run acts).inventory.count "bolt_cutter"
          = (if (BB.run acts).bolt_cutter_taken then 1 else 0) ∧
      ("key" ∈ (BB.run acts).inventory ↔ (BB.run acts).key_taken = true) ∧
      ("bolt_cutter" ∈ (BB.run acts).inventory ↔
        (BB.run acts).bolt_cutter_taken = true)) ∧
    (∀ acts : List FB.Action,
      (FB.run acts).inventory.count "key"
          = (if (FB.run acts).key_taken then 1 else 0) ∧
      (FB.run acts).inventory.count "bolt_cutter"
          = (if (FB.run acts).bolt_cutter_taken then 1 else 0) ∧
      ("key" ∈ (FB.run acts).inventory ↔ (FB.run acts).key_taken = true) ∧
      ("bolt_cutter" ∈ (FB.run acts).inventory ↔
        (FB.run acts).bolt_cutter_taken = true)) := by
  constructor
  · intro acts
    have h := barsInv_BB_run acts
    exact ⟨h.2.2.2.2.1, h.2.2.2.2.2, barsInv_key_mem h, barsInv_bolt_mem h⟩
  · intro acts
    have h := barsInv_FB_run acts
    exact ⟨h.2.2.2.2.1, h.2.2.2.2.2, barsInv_key_mem h, barsInv_bolt_mem h⟩

/-- C1 counterexample: two already-satisfied invocations violating the claim.
In `behind_bars_server.py`, in the reachable state where the safe is already
open but the bolt cutter untaken, `open_safe` (an action whose goal
`safe_opened` is already satisfied — one of the claim's own examples) delegates
to `take_bolt_cutter` and **mutates** the state.  And in `game_server.py`,
`look_behind_door` on an already-open door (another of the claim's examples)
returns `success = false`, not a trivial success. -/
theorem C1_counterexample :
    (BB.run [.look_under_rug, .take_key, .open_safe]).safe_opened = true ∧
    (BB.openSafe (BB.run [.look_under_rug, .take_key, .open_safe])).2 ≠
      BB.run [.look_under_rug, .take_key, .open_safe] ∧
    (GS.run [.look_behind_door 1]).getDoor 1 = true ∧
    (GS.lookBehindDoor 1 (GS.run [.look_behind_door 1])).1.success = false := by
  decide

/-- C1 amended: invoking an action whose goal is already satisfied never raises
(every embedded tool is a total function) and, with one exception, leaves the
state unchanged; but the reply's `success` flag is action- and
variant-specific rather than uniformly true, and the exception mutates.
Precisely: in `behind_bars_server.py` and the FastAPI variant the already-done
`open_door`, `look_under_rug`, `open_safe` and `cut_bars` replies carry
`success = true` while the already-done `take_key` / `take_bolt_cutter` replies
carry `success = false`; in `game_server.py` every already-done reply carries
`success = false`; `server1.py` replies are plain strings with no success flag,
state unchanged; and the single exception is `behind_bars_server.py`'s
`open_safe` on an open safe with the bolt cutter untaken, which delegates to
`take_bolt_cutter` and mutates the state. -/
theorem C1_noop_semantics :
    (∀ s : BarsState,
      (s.door_opened = true →
        (BB.openDoor s).2 = s ∧ (BB.openDoor s).1.success = true) ∧
      (s.rug_lifted = true →
        (BB.lookUnderRug s).2 = s ∧ (BB.lookUnderRug s).1.success = true) ∧
      (s.key_taken = true →
        (BB.takeKey s).2 = s ∧ (BB.takeKey s).1.success = false) ∧
      (s.safe_opened = true → s.bolt_cutter_taken = true →
        (BB.openSafe s).2 = s ∧ (BB.openSafe s).1.success = true) ∧
      (s.safe_opened = true → s.bolt_cutter_taken = false →
        BB.openSafe s = BB.takeBoltCutter s ∧
          (BB.openSafe s).2.bolt_cutter_taken = true) ∧
      (s.bolt_cutter_taken = true →
        (BB.takeBoltCutter s).2 = s ∧ (BB.takeBoltCutter s).1.success = false) ∧
      (s.bars_cut = true →
        (BB.cutBars s).2 = s ∧ (BB.cutBars s).1.success = true ∧
          (BB.cutBars s).1.won = some true)) ∧
    (∀ s : BarsState,
      (s.door_opened = true →
        (FB.openDoor s).2 = s ∧ (FB.openDoor s).1.success = true) ∧
      (s.rug_lifted = true →
        (FB.lookUnderRug s).2 = s ∧ (FB.lookUnderRug s).1.success = true) ∧
      (s.key_taken = true →
        (FB.takeKey s).2 = s ∧ (FB.takeKey s).1.success = false) ∧
      (s.safe_opened = true →
        (FB.openSafe s).2 = s ∧ (FB.openSafe s).1.success = true) ∧
      (s.bolt_cutter_taken = true →
        (FB.takeBoltCutter s).2 = s ∧ (FB.takeBoltCutter s).1.success = false) ∧
      (s.bars_cut = true →
        (FB.cutBars s).2 = s ∧ (FB.cutBars s).1.success = true ∧
          (FB.cutBars s).1.won = some true)) ∧
    (∀ g : GS.State,
      (∀ i, i ∈ ([1, 2, 3] : List Int) → g.getDoor i = true →
        (GS.lookBehindDoor i g).2 = g ∧ (GS.lookBehindDoor i g).1.success = false) ∧
      (g.key_taken = true →
        (GS.takeKey g).2 = g ∧ (GS.takeKey g).1.success = false) ∧
      (g.safe_unlocked = true →
        (GS.useKeyOnSafe g).2 = g ∧ (GS.useKeyOnSafe g).1.success = false) ∧
      (∀ c, g.safe_opened = true →
        (GS.enterCode c g).2 = g ∧ (GS.enterCode c g).1.success = false)) ∧
    (∀ t : S1.State,
      (∀ d, d ∈ (["1", "2", "3"] : List String) → (t.getDoor d).opened = true →
        (S1.lookBehindDoor d t).2 = t) ∧
      ("key" ∈ t.inventory → (S1.takeKey t).2 = t) ∧
      (t.safe_locked = false → (S1.useKeyOnSafe t).2 = t) ∧
      (∀ c, t.safe_opened = true → (S1.enterCode c t).2 = t)) := by
  refine ⟨?_, ?_, ?_, ?_⟩
  · intro s
    refine ⟨?_, ?_, ?_, ?_, ?_, ?_, ?_⟩
    · intro h
      by_cases hb : s.bars_cut <;> simp [BB.openDoor, h, hb]
    · intro h
      by_cases hk : s.key_taken <;> simp [BB.lookUnderRug, h, hk]
    · intro h
      simp [BB.takeKey, h]
    · intro h1 h2
      simp [BB.openSafe, h1, h2]
    · intro h1 h2
      exact ⟨by simp [BB.openSafe, h1, h2],
        by simp [BB.openSafe, BB.takeBoltCutter, h1, h2]⟩
    · intro h
      simp [BB.takeBoltCutter, h]
    · intro h
      simp [BB.cutBars, h]
  · intro s
    refine ⟨?_, ?_, ?_, ?_, ?_, ?_⟩
    · intro h
      by_cases hb : s.bars_cut <;> simp [FB.openDoor, h, hb]
    · intro h
      by_cases hk : s.key_taken <;> simp [FB.lookUnderRug, h, hk]
    · intro h
      simp [FB.takeKey, h]
    · intro h
      by_cases hb : s.bolt_cutter_taken <;> simp [FB.openSafe, h, hb]
    · intro h
      simp [FB.takeBoltCutter, h]
    · intro h
      simp [FB.cutBars, h]
  · intro g
    refine ⟨?_, ?_, ?_, ?_⟩
    · intro i hi h
      simp [GS.lookBehindDoor, hi, h]
    · intro h
      simp [GS.takeKey, h]
    · intro h
      by_cases hk : g.has_key <;> simp [GS.useKeyOnSafe, h, hk]
    · intro c h
      by_cases hu : g.safe_unlocked <;> simp [GS.enterCode, h, hu]
  · intro t
    refine ⟨?_, ?_, ?_, ?_⟩
    · intro d hd h
      simp only [List.mem_cons, List.not_mem_nil, or_false] at hd
      rcases hd with rfl | rfl | rfl
      · have e : pyStrip "1" = "1" := by decide
        by_cases hk : t.door1.has_key <;>
          simp_all [S1.lookBehindDoor, S1.State.getDoor, e]
      · have e : pyStrip "2" = "2" := by decide
        by_cases hk : t.door2.has_key <;>
          simp_all [S1.lookBehindDoor, S1.State.getDoor, e]
      · have e : pyStrip "3" = "3" := by decide
        by_cases hk : t.door3.has_key <;>
          simp_all [S1.lookBehindDoor, S1.State.getDoor, e]
    · intro h
      simp [S1.takeKey, h]
    · intro h
      by_cases hk : "key" ∈ t.inventory <;> simp [S1.useKeyOnSafe, h, hk]
    · intro c h
      by_cases hl : t.safe_locked
      · simp [S1.enterCode, hl]
      · by_cases hc : pyStrip c = t.safe_code <;> simp [S1.enterCode, hl, hc, h]

/-- C1 witness: concrete already-satisfied invocations — re-opening the opened
door is a no-op success in the bars variant; re-taking the held key is a no-op
failure; re-looking behind the opened door 1 of `game_server.py` is a no-op
failure; and the delegating `open_safe` exception concretely sets
`bolt_cutter_taken`. -/
theorem C1_noop_semantics_witness :
    ((BB.openDoor (BB.run [.open_door])).2 = BB.run [.open_door] ∧
      (BB.openDoor (BB.run [.open_door])).1.success = true) ∧
    ((BB.takeKey (BB.run [.look_under_rug, .take_key])).2 =
        BB.run [.look_under_rug, .take_key] ∧
      (BB.takeKey (BB.run [.look_under_rug, .take_key])).1.success = false) ∧
    ((GS.lookBehindDoor 1 (GS.run [.look_behind_door 1])).2 = GS.run [.look_behind_door 1] ∧
      (GS.lookBehindDoor 1 (GS.run [.look_behind_door 1])).1.success = false) ∧
    (BB.openSafe (BB.run [.look_under_rug, .take_key, .open_safe])).2.bolt_cutter_taken
      = true :=
  ⟨(C1_noop_semantics.1 (BB.run [.open_door])).1 (by decide),
    (C1_noop_semantics.1 (BB.run [.look_under_rug, .take_key])).2.2.1 (by decide),
    (C1_noop_semantics.2.2.1 (GS.run [.look_behind_door 1])).1 1 (by decide) (by decide),
    ((C1_noop_semantics.1 (BB.run [.look_under_rug, .take_key, .open_safe])).2.2.2.2.1
      (by decide) (by decide)).2⟩

/-- C10 witness: concrete instance — after `look_under_rug` and `take_key` the
inventory holds the key exactly once. -/
theorem C10_inventory_mirrors_flags_witness :
    (BB.run [.look_under_rug, .take_key]).inventory.count "key" = 1 := by
  have h := (C10_inventory_mirrors_flags.1 [.look_under_rug, .take_key]).1
  rw [show (BB.run [.look_under_rug, .take_key]).key_taken = true by decide] at h
  simpa using h
